import Mathlib

/-!
Shallow embedding of `src/components/ChatbotPage.tsx`: the conversation
pipeline of a single-page chat UI.  React `useState` variables become the
fields of `ChatState`.  Every event handler is embedded as a pure function
from the render-closure snapshot (`snap` — the constants captured by the
closure of the render in which the handler was created) and the current
pending state (`cur` — what the `setX` updaters act on) to a new state plus
a list of observable events.  JavaScript `async` functions run synchronously
up to their first `await`; that is captured by splitting `handleSend` into
the phase before its `await axios.post` and the phase after, so that
`handleTranscription` — which calls `handleSend(...)` WITHOUT awaiting it —
can interleave its own `finally` block between the two phases, exactly as
the JavaScript event loop does.

External collaborators (axios, the transcriber hook, `window.speechSynthesis`)
are modelled by explicit result parameters (`NetResult`,
`TranscriptionResult`, the `synthSpeaking` flag) and by events recording the
calls made to them.
-/

namespace Chat

/-- `interface Message { role: 'user' | 'assistant' | 'system'; content: string }`. -/
inductive Role where
  | system
  | user
  | assistant
deriving DecidableEq

structure Message where
  role : Role
  content : String
deriving DecidableEq

/-- The shape of the completion endpoint's response body that the code reads:
`response.data.choices[0].message.content`. -/
structure ChoiceMessage where
  content : String
deriving DecidableEq

structure Choice where
  message : ChoiceMessage
deriving DecidableEq

structure CompletionData where
  choices : List Choice
deriving DecidableEq

/-- Outcome of `await axios.post(...)`: a response body, or any thrown
error (network failure, non-2xx status such as 401, etc.). -/
inductive NetResult where
  | ok (data : CompletionData)
  | err
deriving DecidableEq

/-- Outcome of `await transcriber.start(audioBuffer)`: recognized text
(`result.text`) or a thrown error. -/
inductive TranscriptionResult where
  | ok (text : String)
  | fail
deriving DecidableEq

/-- The completion request issued by `handleSend`: URL, body fields
(`model`, `messages`) and the `Authorization` header. -/
structure CompletionRequest where
  url : String
  model : String
  messages : List Message
  authorization : String
deriving DecidableEq

/-- The React `useState` variables of `ChatbotPage`. -/
structure ChatState where
  messages : List Message
  inputText : String
  isLoading : Bool
  apiKey : String
  isSpeaking : Bool
  speechEnabled : Bool
deriving DecidableEq

/-- Observable events of one or more handler invocations, in program order. -/
inductive Event where
  | appendUser (content : String)
  | appendAssistant (content : String)
  | setInput (text : String)
  | setBusy (b : Bool)
  | reqStartCompletion (r : CompletionRequest)
  | reqEndCompletion
  | reqStartTranscription
  | reqEndTranscription
  | speak (text : String)
  | cancelSpeech
  | setSpeaking (b : Bool)
  | setSpeechEnabled (b : Bool)
  | alertMissingKey
deriving DecidableEq

/-- The system prompt seeded as the first message (verbatim from the source,
including its mojibake bytes). -/
def systemPromptContent : String := "You are a therapist. Speak like a real person in a conversationâ€”empathetic, relaxed, and human. No bold text or bullet points. Keep your responses to 3â€“4 sentences. Imagine you're sitting across from someone in a calm space, just listening and gently responding.

Here is a sample exchange to guide your tone and style:
User: I have been feeling really isolated lately.
Bot: I am here to listen, Sarah. Whatâ€™s been going on?
User: Ever since moving for grad school, I just... I spend most nights alone. Everyone seems to have their circles already. I scroll through social media and see people having these amazing times together, and I am just... here.
Bot: Itâ€™s a big transition. What do you miss most about your previous support system?
User: Just having someone to share the small things with, you know? Like when something funny happens during the day, or when I am struggling with a project... there is no one to just grab coffee with and talk.
Bot: That sounds really difficult. What small step do you think might help you feel more connected?

Keep it conversational and humanâ€”like you are talking with a friend who needs support."

def systemMessage : Message := ⟨Role.system, systemPromptContent⟩

/-- Initial state of the component (`useState` initializers). -/
def initialState : ChatState :=
  { messages := [systemMessage]
    inputText := ""
    isLoading := false
    apiKey := ""
    isSpeaking := false
    speechEnabled := true }

def sendFailureText : String := "Error: Unable to get a response from OpenAI API."

def transcribeFailureText : String := "Error: Unable to transcribe audio."

def completionUrl : String := "https://api.openai.com/v1/chat/completions"

def completionModel : String := "gpt-4o-mini"

/-- JavaScript `text.trim()`: strip leading and trailing whitespace.
(Defined structurally over the character list so it evaluates in the
kernel; `String.trim` from core is extensionally the same but does not
reduce.) -/
def jsTrim (s : String) : String :=
  String.mk (((s.data.dropWhile Char.isWhitespace).reverse.dropWhile Char.isWhitespace).reverse)

/-- `const text = messageText || inputText;` — JavaScript `||` takes the
right operand when the left is `undefined` or the empty string (falsy). -/
def effectiveText (messageText : Option String) (snap : ChatState) : String :=
  match messageText with
  | some t => if t = "" then snap.inputText else t
  | none => snap.inputText

/-- `speakText(text)` (lines 72–98).  Reads `speechEnabled` from the render
closure; `synthSpeaking` is `window.speechSynthesis.speaking`.  Returns the
calls made to the speech-synthesis collaborator (the utterance's
voice-selection and its `onstart`/`onend`/`onerror` callbacks are the
collaborator's side and fire later). -/
def speakText (snap : ChatState) (synthSpeaking : Bool) (text : String) : List Event :=
  if !snap.speechEnabled then []
  else (if synthSpeaking then [Event.cancelSpeech] else []) ++ [Event.speak text]

/-- `toggleSpeech` (lines 100–108): `setSpeechEnabled(prev => !prev)` is a
functional update on `cur`; the guard `if (speechEnabled && speechSynthesis.speaking)`
reads the closure snapshot. -/
def toggleSpeech (snap cur : ChatState) (synthSpeaking : Bool) : ChatState × List Event :=
  let cur1 := { cur with speechEnabled := !cur.speechEnabled }
  if snap.speechEnabled && synthSpeaking then
    ({ cur1 with isSpeaking := false },
     [Event.setSpeechEnabled cur1.speechEnabled, Event.cancelSpeech, Event.setSpeaking false])
  else
    (cur1, [Event.setSpeechEnabled cur1.speechEnabled])

/-- `handleSend` (lines 130–158), synchronous part up to `await axios.post`:
the trim guard, the missing-key guard, `setMessages(updatedMessages)` (a
replacement with the closure's `messages` plus the new user message),
`setInputText('')`, `setIsLoading(true)`, and issuing the POST.  Returns the
pending request when one was issued, `none` on early return. -/
def handleSendPhase1 (snap cur : ChatState) (messageText : Option String) :
    ChatState × List Event × Option CompletionRequest :=
  let text := effectiveText messageText snap
  if jsTrim text = "" then (cur, [], none)
  else if snap.apiKey = "" then (cur, [Event.alertMissingKey], none)
  else
    let newMessage : Message := ⟨Role.user, text⟩
    let updatedMessages := snap.messages ++ [newMessage]
    let req : CompletionRequest :=
      ⟨completionUrl, completionModel, updatedMessages, "Bearer " ++ snap.apiKey⟩
    ({ cur with messages := updatedMessages, inputText := "", isLoading := true },
     [Event.appendUser text, Event.setInput "", Event.setBusy true,
      Event.reqStartCompletion req],
     some req)

/-- `handleSend` (lines 158–178), continuation after `await axios.post`:
reads `response.data.choices[0].message.content` (an empty `choices` array
makes that access throw, landing in the `catch`), appends the assistant
message with a functional `setMessages(prev => ...)`, calls `speakText`, and
the `finally` clears `isLoading`.  Any thrown error appends the fixed
failure message instead. -/
def handleSendPhase2 (snap cur : ChatState) (synthSpeaking : Bool)
    (net : NetResult) : ChatState × List Event :=
  match net with
  | NetResult.ok data =>
    match data.choices with
    | choice :: _ =>
      let assistantResponse := choice.message.content
      let cur1 := { cur with messages := cur.messages ++ [Message.mk Role.assistant assistantResponse] }
      ({ cur1 with isLoading := false },
       [Event.reqEndCompletion, Event.appendAssistant assistantResponse]
         ++ speakText snap synthSpeaking assistantResponse ++ [Event.setBusy false])
    | [] =>
      let cur1 := { cur with messages := cur.messages ++ [Message.mk Role.assistant sendFailureText] }
      ({ cur1 with isLoading := false },
       [Event.reqEndCompletion, Event.appendAssistant sendFailureText, Event.setBusy false])
  | NetResult.err =>
    let cur1 := { cur with messages := cur.messages ++ [Message.mk Role.assistant sendFailureText] }
    ({ cur1 with isLoading := false },
     [Event.reqEndCompletion, Event.appendAssistant sendFailureText, Event.setBusy false])

/-- A full `handleSend(messageText?)` invocation run to completion with no
interleaving (the standalone case: the UI's Send button). -/
def handleSend (snap cur : ChatState) (messageText : Option String)
    (net : NetResult) (synthSpeaking : Bool) : ChatState × List Event :=
  match handleSendPhase1 snap cur messageText with
  | (cur1, evs, none) => (cur1, evs)
  | (cur1, evs, some _) =>
    let out := handleSendPhase2 snap cur1 synthSpeaking net
    (out.1, evs ++ out.2)

/-- `handleTranscription` (lines 110–128).  `setIsLoading(true)`, `await
transcriber.start`; on success `setInputText(transcribedText)` then
`handleSend(transcribedText)` — NOT awaited, so only its synchronous phase
runs before `handleTranscription`'s `finally { setIsLoading(false) }`; the
continuation of `handleSend` (the part after its own `await`) runs after
that.  On failure, appends the fixed transcription-failure message. -/
def handleTranscription (snap cur : ChatState) (tr : TranscriptionResult)
    (net : NetResult) (synthSpeaking : Bool) : ChatState × List Event :=
  let cur0 := { cur with isLoading := true }
  let evs0 : List Event := [Event.setBusy true, Event.reqStartTranscription]
  match tr with
  | TranscriptionResult.ok t =>
    let cur1 := { cur0 with inputText := t }
    match handleSendPhase1 snap cur1 (some t) with
    | (cur2, sEvs, none) =>
      ({ cur2 with isLoading := false },
       evs0 ++ [Event.reqEndTranscription, Event.setInput t] ++ sEvs ++ [Event.setBusy false])
    | (cur2, sEvs, some _) =>
      let cur3 := { cur2 with isLoading := false }
      let out := handleSendPhase2 snap cur3 synthSpeaking net
      (out.1,
       evs0 ++ [Event.reqEndTranscription, Event.setInput t] ++ sEvs
         ++ [Event.setBusy false] ++ out.2)
  | TranscriptionResult.fail =>
    let cur1 := { cur0 with messages := cur0.messages ++ [Message.mk Role.assistant transcribeFailureText] }
    ({ cur1 with isLoading := false },
     evs0 ++ [Event.reqEndTranscription,
              Event.appendAssistant transcribeFailureText, Event.setBusy false])

/-- The mutation paths of the component, each invoked from an idle render
where the closure snapshot equals the current state.  `editKey` is
`handleApiKeyChange`, `typeInput` is the text input's `onChange`, `replay`
is the per-message speaker button (`speakText` alone, which never mutates
the React state directly). -/
inductive Op where
  | send (messageText : Option String) (net : NetResult) (synthSpeaking : Bool)
  | record (tr : TranscriptionResult) (net : NetResult) (synthSpeaking : Bool)
  | toggle (synthSpeaking : Bool)
  | replay (content : String) (synthSpeaking : Bool)
  | editKey (k : String)
  | typeInput (t : String)

def applyOp (s : ChatState) : Op → ChatState
  | Op.send mt net synth => (handleSend s s mt net synth).1
  | Op.record tr net synth => (handleTranscription s s tr net synth).1
  | Op.toggle synth => (toggleSpeech s s synth).1
  | Op.replay _ _ => s
  | Op.editKey k => { s with apiKey := k }
  | Op.typeInput t => { s with inputText := t }

/-- States reachable from startup by a sequence of operations. -/
def runOps (ops : List Op) : ChatState := ops.foldl applyOp initialState

/-- The rendered chat view: `messages.slice(1).map(...)`. -/
def renderedMessages (s : ChatState) : List Message := s.messages.drop 1

/-- The busy flag after a trace, starting from `b`. -/
def stepBusy (b : Bool) : Event → Bool
  | Event.setBusy b' => b'
  | _ => b

def busyAfter (tr : List Event) (b : Bool) : Bool := tr.foldl stepBusy b

/-- Number of outstanding external requests (completion or transcription)
after a trace, starting from `n`. -/
def stepPending (n : Nat) : Event → Nat
  | Event.reqStartCompletion _ => n + 1
  | Event.reqEndCompletion => n - 1
  | Event.reqStartTranscription => n + 1
  | Event.reqEndTranscription => n - 1
  | _ => n

def pendingAfter (tr : List Event) (n : Nat) : Nat := tr.foldl stepPending n

/-- Checks, after every event of the trace, that at most one request is
outstanding and that the busy flag is set whenever one is. -/
def guardOk : Bool → Nat → List Event → Bool
  | _, _, [] => true
  | b, n, e :: rest =>
    let b' := stepBusy b e
    let n' := stepPending n e
    decide (n' ≤ 1) && (n' == 0 || b') && guardOk b' n' rest

/-- Number of outstanding transcription requests after one event. -/
def stepPendingTr (n : Nat) : Event → Nat
  | Event.reqStartTranscription => n + 1
  | Event.reqEndTranscription => n - 1
  | _ => n

/-- Checks, after every event of the trace, that the busy flag is set
whenever a transcription request is outstanding. -/
def guardOkTr : Bool → Nat → List Event → Bool
  | _, _, [] => true
  | b, n, e :: rest =>
    let b' := stepBusy b e
    let n' := stepPendingTr n e
    (n' == 0 || b') && guardOkTr b' n' rest

/-- Recognizes the event of issuing a completion request. -/
def isReqStartCompletion : Event → Bool
  | Event.reqStartCompletion _ => true
  | _ => false

/-- The conversation-shape invariant of C4: the list starts with the fixed
system message and no later entry has the system role. -/
def ConversationInv (s : ChatState) : Prop :=
  s.messages.head? = some systemMessage ∧ ∀ m ∈ s.messages.drop 1, m.role ≠ Role.system

/-- A state with a typed message pending in the input field and a stored
key (used for concrete instantiations). -/
def typedState : ChatState :=
  { initialState with inputText := "hi", apiKey := "k" }

/-- A state with a typed message pending but no stored key. -/
def typedNoKeyState : ChatState :=
  { initialState with inputText := "hi" }

/-- A state with a stored key and an empty input field. -/
def keyedState : ChatState :=
  { initialState with apiKey := "k" }

/-- A state with speech synthesis disabled. -/
def speechOffState : ChatState :=
  { initialState with speechEnabled := false }

/-- A state with a stored key and speech disabled, used for the trace of a
voice turn. -/
def voiceState : ChatState :=
  { initialState with apiKey := "k", speechEnabled := false }

/-- The event trace of one voice turn from `voiceState`: transcription
succeeds with "hi", the completion request succeeds with reply "ok". -/
def voiceTrace : List Event :=
  (handleTranscription voiceState voiceState (TranscriptionResult.ok "hi")
    (NetResult.ok ⟨[⟨⟨"ok"⟩⟩]⟩) false).2

lemma handleSend_messages_cases (snap cur : ChatState) (mt : Option String)
    (net : NetResult) (synth : Bool) :
    (handleSend snap cur mt net synth).1.messages = cur.messages
    ∨ ∃ a, (handleSend snap cur mt net synth).1.messages
        = snap.messages
            ++ [Message.mk Role.user (effectiveText mt snap), Message.mk Role.assistant a] := by
  by_cases h1 : jsTrim (effectiveText mt snap) = ""
  · left; simp [handleSend, handleSendPhase1, h1]
  · by_cases h2 : snap.apiKey = ""
    · left; simp [handleSend, handleSendPhase1, h1, h2]
    · right
      cases net with
      | ok data =>
        obtain ⟨choices⟩ := data
        cases choices with
        | nil =>
          exact ⟨sendFailureText,
            by simp [handleSend, handleSendPhase1, handleSendPhase2, h1, h2]⟩
        | cons c cs =>
          exact ⟨c.message.content,
            by simp [handleSend, handleSendPhase1, handleSendPhase2, h1, h2]⟩
      | err =>
        exact ⟨sendFailureText,
          by simp [handleSend, handleSendPhase1, handleSendPhase2, h1, h2]⟩

lemma handleTranscription_messages_cases (snap cur : ChatState) (tr : TranscriptionResult)
    (net : NetResult) (synth : Bool) :
    (handleTranscription snap cur tr net synth).1.messages = cur.messages
    ∨ (handleTranscription snap cur tr net synth).1.messages
        = cur.messages ++ [Message.mk Role.assistant transcribeFailureText]
    ∨ ∃ t a, (handleTranscription snap cur tr net synth).1.messages
        = snap.messages ++ [Message.mk Role.user t, Message.mk Role.assistant a] := by
  cases tr with
  | fail =>
    right; left; simp [handleTranscription]
  | ok t =>
    by_cases h1 : jsTrim (effectiveText (some t) snap) = ""
    · left; simp [handleTranscription, handleSendPhase1, h1]
    · by_cases h2 : snap.apiKey = ""
      · left; simp [handleTranscription, handleSendPhase1, h1, h2]
      · right; right
        refine ⟨effectiveText (some t) snap, ?_⟩
        cases net with
        | ok data =>
          obtain ⟨choices⟩ := data
          cases choices with
          | nil =>
            exact ⟨sendFailureText,
              by simp [handleTranscription, handleSendPhase1, handleSendPhase2, h1, h2]⟩
          | cons c cs =>
            exact ⟨c.message.content,
              by simp [handleTranscription, handleSendPhase1, handleSendPhase2, h1, h2]⟩
        | err =>
          exact ⟨sendFailureText,
            by simp [handleTranscription, handleSendPhase1, handleSendPhase2, h1, h2]⟩

lemma applyOp_messages (s : ChatState) (op : Op) :
    ∃ tail, (applyOp s op).messages = s.messages ++ tail
      ∧ ∀ m ∈ tail, m.role ≠ Role.system := by
  cases op with
  | send mt net synth =>
    rcases handleSend_messages_cases s s mt net synth with h | ⟨a, h⟩
    · exact ⟨[], by simpa [applyOp] using h, by simp⟩
    · refine ⟨[Message.mk Role.user (effectiveText mt s), Message.mk Role.assistant a],
        by simpa [applyOp] using h, ?_⟩
      intro m hm
      simp at hm
      rcases hm with rfl | rfl <;> simp
  | record tr net synth =>
    rcases handleTranscription_messages_cases s s tr net synth with h | h | ⟨t, a, h⟩
    · exact ⟨[], by simpa [applyOp] using h, by simp⟩
    · refine ⟨[Message.mk Role.assistant transcribeFailureText],
        by simpa [applyOp] using h, ?_⟩
      intro m hm
      simp at hm
      subst hm
      simp
    · refine ⟨[Message.mk Role.user t, Message.mk Role.assistant a],
        by simpa [applyOp] using h, ?_⟩
      intro m hm
      simp at hm
      rcases hm with rfl | rfl <;> simp
  | toggle synth =>
    refine ⟨[], ?_, by simp⟩
    unfold applyOp toggleSpeech
    by_cases h : s.speechEnabled && synth <;> simp [h]
  | replay c synth => exact ⟨[], by simp [applyOp], by simp⟩
  | editKey k => exact ⟨[], by simp [applyOp], by simp⟩
  | typeInput t => exact ⟨[], by simp [applyOp], by simp⟩

lemma conversationInv_applyOp (s : ChatState) (op : Op) (h : ConversationInv s) :
    ConversationInv (applyOp s op) := by
  obtain ⟨tail, hmsg, htail⟩ := applyOp_messages s op
  obtain ⟨hhead, hrest⟩ := h
  cases hms : s.messages with
  | nil => rw [hms] at hhead; simp at hhead
  | cons x xs =>
    rw [hms] at hhead
    constructor
    · rw [hmsg, hms]
      simpa using hhead
    · rw [hmsg, hms]
      intro m hm
      simp at hm
      rcases hm with hm | hm
      · exact hrest m (by rw [hms]; simpa using hm)
      · exact htail m hm

lemma conversationInv_initialState : ConversationInv initialState := by
  constructor
  · rfl
  · intro m hm
    simp [initialState] at hm

lemma conversationInv_runOps (ops : List Op) : ConversationInv (runOps ops) := by
  suffices h : ∀ s, ConversationInv s → ConversationInv (ops.foldl applyOp s) from
    h initialState conversationInv_initialState
  induction ops with
  | nil => intro s hs; exact hs
  | cons op rest ih => intro s hs; exact ih _ (conversationInv_applyOp s op hs)

/-- C7 counterexample: the explicit argument `""` is empty after trimming,
yet `handleSend` invoked with it from a state whose input field holds "hi"
and whose key is stored mutates the Conversation — the empty-string
argument falls back to the input-field text instead of hitting the trim
guard. -/
theorem empty_string_argument_not_noop :
    jsTrim "" = ""
    ∧ (handleSend typedState typedState (some "") NetResult.err false).1.messages
        ≠ typedState.messages := by
  refine ⟨rfl, ?_⟩
  have h1 : ¬ (jsTrim (effectiveText (some "") typedState) = "") := by decide
  have h2 : ¬ (typedState.apiKey = "") := by decide
  intro hEq
  have hlen := congrArg List.length hEq
  simp [handleSend, handleSendPhase1, handleSendPhase2, h1, h2] at hlen

/-- C7 (amended): whenever the effective text — the explicit argument, or
the input-field text when the argument is absent or empty — is empty or
whitespace-only after trimming, `handleSend` is a complete no-op: the state
(hence the Conversation and the busy flag) is unchanged and no event (in
particular no network call) is produced. -/
theorem blank_effective_text_noop (s : ChatState) (mt : Option String)
    (net : NetResult) (synth : Bool) (h : jsTrim (effectiveText mt s) = "") :
    handleSend s s mt net synth = (s, []) := by
  unfold handleSend handleSendPhase1
  simp [h]

theorem blank_effective_text_noop_witness :
    jsTrim (effectiveText none initialState) = ""
    ∧ handleSend initialState initialState none NetResult.err false = (initialState, []) :=
  ⟨by decide, blank_effective_text_noop initialState none NetResult.err false (by decide)⟩

/-- C8: with a non-blank effective text but no stored credential,
`handleSend` aborts after the alert prompt: the state (hence the
Conversation and the busy flag) is unchanged and the only event is the
alert — no network call. -/
theorem missing_key_aborts (s : ChatState) (mt : Option String)
    (net : NetResult) (synth : Bool)
    (h1 : jsTrim (effectiveText mt s) ≠ "") (h2 : s.apiKey = "") :
    handleSend s s mt net synth = (s, [Event.alertMissingKey]) := by
  unfold handleSend handleSendPhase1
  simp [h1, h2]

theorem missing_key_aborts_witness :
    jsTrim (effectiveText none typedNoKeyState) ≠ ""
    ∧ typedNoKeyState.apiKey = ""
    ∧ handleSend typedNoKeyState typedNoKeyState none NetResult.err false
        = (typedNoKeyState, [Event.alertMissingKey]) :=
  ⟨by decide, rfl,
    missing_key_aborts typedNoKeyState none NetResult.err false (by decide) rfl⟩

/-- C4: in every reachable state the Conversation starts with the fixed
system message, no later entry has the system role, every operation only
appends to the list, and the rendered view is exactly the messages after
index 0 — so it never contains the system message. -/
theorem conversation_system_head_append_only (ops : List Op) :
    (runOps ops).messages.head? = some systemMessage
    ∧ (∀ m ∈ (runOps ops).messages.drop 1, m.role ≠ Role.system)
    ∧ (∀ op, ∃ tail, (applyOp (runOps ops) op).messages = (runOps ops).messages ++ tail)
    ∧ renderedMessages (runOps ops) = (runOps ops).messages.drop 1
    ∧ (∀ m ∈ renderedMessages (runOps ops), m.role ≠ Role.system) := by
  obtain ⟨h1, h2⟩ := conversationInv_runOps ops
  refine ⟨h1, h2, ?_, rfl, ?_⟩
  · intro op
    obtain ⟨tail, ht, _⟩ := applyOp_messages (runOps ops) op
    exact ⟨tail, ht⟩
  · simpa [renderedMessages] using h2

/-- C1: with a non-blank effective text and a stored credential,
`handleSend` grows the Conversation by exactly one user message carrying
that text followed by exactly one assistant message — the first completion
choice's content on success, the fixed failure text on any failure — and
the busy flag is cleared at the end in all cases. -/
theorem handleSend_appends_one_user_one_assistant (s : ChatState) (mt : Option String)
    (net : NetResult) (synth : Bool)
    (h1 : jsTrim (effectiveText mt s) ≠ "") (h2 : s.apiKey ≠ "") :
    ∃ a,
      (handleSend s s mt net synth).1.messages
        = s.messages
            ++ [Message.mk Role.user (effectiveText mt s), Message.mk Role.assistant a]
      ∧ (handleSend s s mt net synth).1.isLoading = false
      ∧ ((∃ choice rest, net = NetResult.ok ⟨choice :: rest⟩ ∧ a = choice.message.content)
        ∨ (a = sendFailureText ∧ ∀ choice rest, net ≠ NetResult.ok ⟨choice :: rest⟩)) := by
  cases net with
  | ok data =>
    obtain ⟨choices⟩ := data
    cases choices with
    | nil =>
      refine ⟨sendFailureText,
        by simp [handleSend, handleSendPhase1, handleSendPhase2, h1, h2],
        by simp [handleSend, handleSendPhase1, handleSendPhase2, h1, h2],
        Or.inr ⟨rfl, ?_⟩⟩
      intro choice rest hne
      simp at hne
    | cons c cs =>
      exact ⟨c.message.content,
        by simp [handleSend, handleSendPhase1, handleSendPhase2, h1, h2],
        by simp [handleSend, handleSendPhase1, handleSendPhase2, h1, h2],
        Or.inl ⟨c, cs, rfl, rfl⟩⟩
  | err =>
    refine ⟨sendFailureText,
      by simp [handleSend, handleSendPhase1, handleSendPhase2, h1, h2],
      by simp [handleSend, handleSendPhase1, handleSendPhase2, h1, h2],
      Or.inr ⟨rfl, ?_⟩⟩
    intro choice rest hne
    simp at hne

theorem handleSend_appends_one_user_one_assistant_witness :
    jsTrim (effectiveText (some "Hello") keyedState) ≠ ""
    ∧ keyedState.apiKey ≠ ""
    ∧ ∃ a,
        (handleSend keyedState keyedState (some "Hello")
            (NetResult.ok ⟨[⟨⟨"Hi there"⟩⟩]⟩) false).1.messages
          = keyedState.messages
              ++ [Message.mk Role.user (effectiveText (some "Hello") keyedState),
                  Message.mk Role.assistant a]
        ∧ (handleSend keyedState keyedState (some "Hello")
            (NetResult.ok ⟨[⟨⟨"Hi there"⟩⟩]⟩) false).1.isLoading = false
        ∧ ((∃ choice rest,
              NetResult.ok ⟨[⟨⟨"Hi there"⟩⟩]⟩ = NetResult.ok ⟨choice :: rest⟩
              ∧ a = choice.message.content)
          ∨ (a = sendFailureText
            ∧ ∀ choice rest,
                NetResult.ok ⟨[⟨⟨"Hi there"⟩⟩]⟩ ≠ NetResult.ok ⟨choice :: rest⟩)) :=
  ⟨by decide, by decide,
    handleSend_appends_one_user_one_assistant keyedState (some "Hello")
      (NetResult.ok ⟨[⟨⟨"Hi there"⟩⟩]⟩) false (by decide) (by decide)⟩

/-- C3: a voice turn whose transcription succeeds with text `t` performs
exactly the Conversation mutation of a direct `handleSend(t)`: the
resulting message lists are equal, for every state, transcribed text and
completion outcome. -/
theorem handleTranscription_refines_handleSend (s : ChatState) (t : String)
    (net : NetResult) (synth : Bool) :
    (handleTranscription s s (TranscriptionResult.ok t) net synth).1.messages
      = (handleSend s s (some t) net synth).1.messages := by
  unfold handleTranscription handleSend
  by_cases h1 : jsTrim (effectiveText (some t) s) = ""
  · simp [handleSendPhase1, h1]
  · by_cases h2 : s.apiKey = ""
    · simp [handleSendPhase1, h1, h2]
    · cases net with
      | ok data =>
        obtain ⟨choices⟩ := data
        cases choices with
        | nil => simp [handleSendPhase1, handleSendPhase2, h1, h2]
        | cons c cs => simp [handleSendPhase1, handleSendPhase2, h1, h2]
      | err => simp [handleSendPhase1, handleSendPhase2, h1, h2]

/-- C10: a `handleSend` invocation with the explicit empty-string argument
behaves exactly like one with no argument — the argument is discarded in
favour of the input-field text — and in particular a recording transcribed
to the empty string submits the previously typed input-field text. -/
theorem empty_argument_falls_back_to_input (s : ChatState) (net : NetResult) (synth : Bool)
    (h1 : jsTrim s.inputText ≠ "") (h2 : s.apiKey ≠ "") :
    handleSend s s (some "") net synth = handleSend s s none net synth
    ∧ ∃ a, (handleTranscription s s (TranscriptionResult.ok "") net synth).1.messages
        = s.messages ++ [Message.mk Role.user s.inputText, Message.mk Role.assistant a] := by
  constructor
  · unfold handleSend handleSendPhase1
    simp [effectiveText]
  · have he : effectiveText (some "") s = s.inputText := by simp [effectiveText]
    cases net with
    | ok data =>
      obtain ⟨choices⟩ := data
      cases choices with
      | nil =>
        exact ⟨sendFailureText,
          by simp [handleTranscription, handleSendPhase1, handleSendPhase2, he, h1, h2]⟩
      | cons c cs =>
        exact ⟨c.message.content,
          by simp [handleTranscription, handleSendPhase1, handleSendPhase2, he, h1, h2]⟩
    | err =>
      exact ⟨sendFailureText,
        by simp [handleTranscription, handleSendPhase1, handleSendPhase2, he, h1, h2]⟩

theorem empty_argument_falls_back_to_input_witness :
    jsTrim typedState.inputText ≠ ""
    ∧ typedState.apiKey ≠ ""
    ∧ (handleSend typedState typedState (some "") NetResult.err false
        = handleSend typedState typedState none NetResult.err false
      ∧ ∃ a, (handleTranscription typedState typedState (TranscriptionResult.ok "")
            NetResult.err false).1.messages
          = typedState.messages
              ++ [Message.mk Role.user typedState.inputText, Message.mk Role.assistant a]) :=
  ⟨by decide, by decide,
    empty_argument_falls_back_to_input typedState NetResult.err false
      (by decide) (by decide)⟩

/-- C2 counterexample: in the voice turn from `voiceState` (transcription
succeeds with "hi", completion replies "ok"), after the first nine events
the completion request is outstanding while the busy flag is already
false — `handleTranscription` does not await the `handleSend` it fires, so
its `finally` clears the flag as soon as the request is issued — and the
assistant append only happens later; the busy-guard checker therefore
rejects the trace. -/
theorem busy_cleared_while_completion_outstanding :
    pendingAfter (voiceTrace.take 9) 0 = 1
    ∧ busyAfter (voiceTrace.take 9) false = false
    ∧ (∃ i, 9 ≤ i ∧ voiceTrace[i]? = some (Event.appendAssistant "ok"))
    ∧ guardOk false 0 voiceTrace = false := by
  exact ⟨by decide, by decide, ⟨10, by decide, by decide⟩, by decide⟩

/-- C2 (amended): within a standalone `handleSend` invocation at most one
request is ever outstanding and the busy flag is set for the whole time a
request is outstanding, whatever the initial flag value; and within
`handleTranscription` the busy flag likewise covers the transcription
request itself.  (The completion request chained from a voice turn is NOT
covered: the busy flag is cleared while it is still in flight, as the
counterexample shows, so a second invocation is not prevented then.) -/
theorem busy_guard_within_each_handler (snap cur : ChatState) (mt : Option String)
    (tr : TranscriptionResult) (net : NetResult) (synth : Bool) (b : Bool) :
    guardOk b 0 (handleSend snap cur mt net synth).2 = true
    ∧ guardOkTr b 0 (handleTranscription snap cur tr net synth).2 = true := by
  constructor
  · by_cases h1 : jsTrim (effectiveText mt snap) = ""
    · simp [handleSend, handleSendPhase1, h1, guardOk]
    · by_cases h2 : snap.apiKey = ""
      · simp [handleSend, handleSendPhase1, h1, h2, guardOk, stepBusy, stepPending]
      · cases net with
        | ok data =>
          obtain ⟨choices⟩ := data
          cases choices with
          | nil =>
            simp [handleSend, handleSendPhase1, handleSendPhase2, h1, h2,
              guardOk, stepBusy, stepPending]
          | cons c cs =>
            cases hsp : snap.speechEnabled <;> cases synth <;>
              simp [handleSend, handleSendPhase1, handleSendPhase2, speakText, hsp,
                h1, h2, guardOk, stepBusy, stepPending]
        | err =>
          simp [handleSend, handleSendPhase1, handleSendPhase2, h1, h2,
            guardOk, stepBusy, stepPending]
  · cases tr with
    | fail =>
      simp [handleTranscription, guardOkTr, stepBusy, stepPendingTr]
    | ok t =>
      by_cases h1 : jsTrim (effectiveText (some t) snap) = ""
      · simp [handleTranscription, handleSendPhase1, h1, guardOkTr, stepBusy, stepPendingTr]
      · by_cases h2 : snap.apiKey = ""
        · simp [handleTranscription, handleSendPhase1, h1, h2,
            guardOkTr, stepBusy, stepPendingTr]
        · cases net with
          | ok data =>
            obtain ⟨choices⟩ := data
            cases choices with
            | nil =>
              simp [handleTranscription, handleSendPhase1, handleSendPhase2, h1, h2,
                guardOkTr, stepBusy, stepPendingTr]
            | cons c cs =>
              cases hsp : snap.speechEnabled <;> cases synth <;>
                simp [handleTranscription, handleSendPhase1, handleSendPhase2, speakText,
                  hsp, h1, h2, guardOkTr, stepBusy, stepPendingTr]
          | err =>
            simp [handleTranscription, handleSendPhase1, handleSendPhase2, h1, h2,
              guardOkTr, stepBusy, stepPendingTr]

lemma countP_isReqStartCompletion_speakText (snap : ChatState) (sy : Bool) (t : String) :
    (speakText snap sy t).countP isReqStartCompletion = 0 := by
  cases hsp : snap.speechEnabled <;> cases sy <;>
    simp [speakText, hsp, isReqStartCompletion]

/-- C5: a successful-precondition `handleSend` issues exactly one
completion request, whose body carries the model identifier and the full
ordered Conversation — the closure's messages (headed by the system
message whenever the state is) plus the just-appended user message — and
whose header carries the bearer credential; the appended assistant reply
is exactly the first completion choice's message content. -/
theorem completion_request_carries_model_history_bearer (s : ChatState) (mt : Option String)
    (choice : Choice) (rest : List Choice) (synth : Bool)
    (h1 : jsTrim (effectiveText mt s) ≠ "") (h2 : s.apiKey ≠ "") :
    Event.reqStartCompletion
        ⟨completionUrl, completionModel,
         s.messages ++ [Message.mk Role.user (effectiveText mt s)],
         "Bearer " ++ s.apiKey⟩
      ∈ (handleSend s s mt (NetResult.ok ⟨choice :: rest⟩) synth).2
    ∧ (handleSend s s mt (NetResult.ok ⟨choice :: rest⟩) synth).2.countP
        isReqStartCompletion = 1
    ∧ (handleSend s s mt (NetResult.ok ⟨choice :: rest⟩) synth).1.messages
        = s.messages ++ [Message.mk Role.user (effectiveText mt s),
                         Message.mk Role.assistant choice.message.content]
    ∧ (s.messages.head? = some systemMessage →
        (s.messages ++ [Message.mk Role.user (effectiveText mt s)]).head?
          = some systemMessage) := by
  refine ⟨?_, ?_, ?_, ?_⟩
  · simp [handleSend, handleSendPhase1, handleSendPhase2, h1, h2]
  · simp [handleSend, handleSendPhase1, handleSendPhase2, h1, h2, List.countP_append,
      List.countP_cons, countP_isReqStartCompletion_speakText, isReqStartCompletion]
  · simp [handleSend, handleSendPhase1, handleSendPhase2, h1, h2]
  · intro hh
    cases hm : s.messages with
    | nil => rw [hm] at hh; simp at hh
    | cons x xs => rw [hm] at hh; simpa using hh

theorem completion_request_carries_model_history_bearer_witness :
    jsTrim (effectiveText (some "Hello") keyedState) ≠ ""
    ∧ keyedState.apiKey ≠ ""
    ∧ Event.reqStartCompletion
        ⟨completionUrl, completionModel,
         keyedState.messages ++ [Message.mk Role.user (effectiveText (some "Hello") keyedState)],
         "Bearer " ++ keyedState.apiKey⟩
      ∈ (handleSend keyedState keyedState (some "Hello")
          (NetResult.ok ⟨[⟨⟨"Hi"⟩⟩]⟩) false).2 :=
  ⟨by decide, by decide,
    (completion_request_carries_model_history_bearer keyedState (some "Hello")
      ⟨⟨"Hi"⟩⟩ [] false (by decide) (by decide)).1⟩

/-- C9: toggling speech while it is enabled and playback is active flips
the flag off, issues a cancel to the speech collaborator, and clears the
speaking indicator; and whenever speech is disabled, `speakText` (also the
per-message replay button) makes no collaborator call — no utterance is
started. -/
theorem toggleSpeech_cancels_and_disabled_speakText_noop
    (s : ChatState) (synth : Bool) (t : String) :
    (s.speechEnabled = true → synth = true →
      (toggleSpeech s s synth).1.speechEnabled = false
      ∧ (toggleSpeech s s synth).1.isSpeaking = false
      ∧ Event.cancelSpeech ∈ (toggleSpeech s s synth).2)
    ∧ (s.speechEnabled = false → speakText s synth t = []) := by
  constructor
  · intro h1 h2
    subst h2
    refine ⟨?_, ?_, ?_⟩ <;> simp [toggleSpeech, h1]
  · intro h1
    simp [speakText, h1]

theorem toggleSpeech_cancels_and_disabled_speakText_noop_witness :
    (initialState.speechEnabled = true
      ∧ (toggleSpeech initialState initialState true).1.speechEnabled = false
      ∧ (toggleSpeech initialState initialState true).1.isSpeaking = false
      ∧ Event.cancelSpeech ∈ (toggleSpeech initialState initialState true).2)
    ∧ (speechOffState.speechEnabled = false
      ∧ speakText speechOffState false "hello" = []) :=
  ⟨⟨rfl,
    (toggleSpeech_cancels_and_disabled_speakText_noop initialState true "hello").1 rfl rfl⟩,
   ⟨rfl,
    (toggleSpeech_cancels_and_disabled_speakText_noop speechOffState false "hello").2 rfl⟩⟩

/-- C6: within one successful invocation of `handleSend` (first conjunct)
or `handleTranscription` (second conjunct), the user-message append
strictly precedes issuing the completion request, which strictly precedes
its completion, which strictly precedes the assistant-message append,
which strictly precedes the speech-playback invocation. -/
theorem pipeline_event_order (s : ChatState) (mt : Option String) (choice : Choice)
    (rest : List Choice) (synth : Bool) (t : String)
    (h1 : jsTrim (effectiveText mt s) ≠ "") (h2 : s.apiKey ≠ "")
    (h3 : s.speechEnabled = true) (h4 : jsTrim t ≠ "") :
    (∃ i1 i2 i3 i4 i5 : Nat, i1 < i2 ∧ i2 < i3 ∧ i3 < i4 ∧ i4 < i5
      ∧ (handleSend s s mt (NetResult.ok ⟨choice :: rest⟩) synth).2[i1]?
          = some (Event.appendUser (effectiveText mt s))
      ∧ (∃ r, (handleSend s s mt (NetResult.ok ⟨choice :: rest⟩) synth).2[i2]?
          = some (Event.reqStartCompletion r))
      ∧ (handleSend s s mt (NetResult.ok ⟨choice :: rest⟩) synth).2[i3]?
          = some Event.reqEndCompletion
      ∧ (handleSend s s mt (NetResult.ok ⟨choice :: rest⟩) synth).2[i4]?
          = some (Event.appendAssistant choice.message.content)
      ∧ (handleSend s s mt (NetResult.ok ⟨choice :: rest⟩) synth).2[i5]?
          = some (Event.speak choice.message.content))
    ∧ (∃ j1 j2 j3 j4 j5 : Nat, j1 < j2 ∧ j2 < j3 ∧ j3 < j4 ∧ j4 < j5
      ∧ (handleTranscription s s (TranscriptionResult.ok t)
            (NetResult.ok ⟨choice :: rest⟩) synth).2[j1]?
          = some (Event.appendUser t)
      ∧ (∃ r, (handleTranscription s s (TranscriptionResult.ok t)
            (NetResult.ok ⟨choice :: rest⟩) synth).2[j2]?
          = some (Event.reqStartCompletion r))
      ∧ (handleTranscription s s (TranscriptionResult.ok t)
            (NetResult.ok ⟨choice :: rest⟩) synth).2[j3]?
          = some Event.reqEndCompletion
      ∧ (handleTranscription s s (TranscriptionResult.ok t)
            (NetResult.ok ⟨choice :: rest⟩) synth).2[j4]?
          = some (Event.appendAssistant choice.message.content)
      ∧ (handleTranscription s s (TranscriptionResult.ok t)
            (NetResult.ok ⟨choice :: rest⟩) synth).2[j5]?
          = some (Event.speak choice.message.content)) := by
  have h5 : t ≠ "" := by
    rintro rfl
    exact h4 (by decide)
  have he : effectiveText (some t) s = t := by simp [effectiveText, h5]
  constructor
  · cases synth with
    | false =>
      refine ⟨0, 3, 4, 5, 6, by omega, by omega, by omega, by omega, ?_,
        ⟨⟨completionUrl, completionModel,
          s.messages ++ [Message.mk Role.user (effectiveText mt s)],
          "Bearer " ++ s.apiKey⟩, ?_⟩, ?_, ?_, ?_⟩ <;>
        simp [handleSend, handleSendPhase1, handleSendPhase2, speakText, h1, h2, h3]
    | true =>
      refine ⟨0, 3, 4, 5, 7, by omega, by omega, by omega, by omega, ?_,
        ⟨⟨completionUrl, completionModel,
          s.messages ++ [Message.mk Role.user (effectiveText mt s)],
          "Bearer " ++ s.apiKey⟩, ?_⟩, ?_, ?_, ?_⟩ <;>
        simp [handleSend, handleSendPhase1, handleSendPhase2, speakText, h1, h2, h3]
  · cases synth with
    | false =>
      refine ⟨4, 7, 9, 10, 11, by omega, by omega, by omega, by omega, ?_,
        ⟨⟨completionUrl, completionModel,
          s.messages ++ [Message.mk Role.user t],
          "Bearer " ++ s.apiKey⟩, ?_⟩, ?_, ?_, ?_⟩ <;>
        simp [handleTranscription, handleSendPhase1, handleSendPhase2, speakText,
          he, h4, h2, h3]
    | true =>
      refine ⟨4, 7, 9, 10, 12, by omega, by omega, by omega, by omega, ?_,
        ⟨⟨completionUrl, completionModel,
          s.messages ++ [Message.mk Role.user t],
          "Bearer " ++ s.apiKey⟩, ?_⟩, ?_, ?_, ?_⟩ <;>
        simp [handleTranscription, handleSendPhase1, handleSendPhase2, speakText,
          he, h4, h2, h3]

theorem pipeline_event_order_witness :
    jsTrim (effectiveText (some "Hello") keyedState) ≠ ""
    ∧ keyedState.apiKey ≠ ""
    ∧ keyedState.speechEnabled = true
    ∧ jsTrim "hi" ≠ ""
    ∧ (∃ i1 i2 i3 i4 i5 : Nat, i1 < i2 ∧ i2 < i3 ∧ i3 < i4 ∧ i4 < i5
      ∧ (handleSend keyedState keyedState (some "Hello")
            (NetResult.ok ⟨[⟨⟨"ok"⟩⟩]⟩) false).2[i1]?
          = some (Event.appendUser (effectiveText (some "Hello") keyedState))
      ∧ (∃ r, (handleSend keyedState keyedState (some "Hello")
            (NetResult.ok ⟨[⟨⟨"ok"⟩⟩]⟩) false).2[i2]?
          = some (Event.reqStartCompletion r))
      ∧ (handleSend keyedState keyedState (some "Hello")
            (NetResult.ok ⟨[⟨⟨"ok"⟩⟩]⟩) false).2[i3]?
          = some Event.reqEndCompletion
      ∧ (handleSend keyedState keyedState (some "Hello")
            (NetResult.ok ⟨[⟨⟨"ok"⟩⟩]⟩) false).2[i4]?
          = some (Event.appendAssistant (ChoiceMessage.mk "ok").content)
      ∧ (handleSend keyedState keyedState (some "Hello")
            (NetResult.ok ⟨[⟨⟨"ok"⟩⟩]⟩) false).2[i5]?
          = some (Event.speak (ChoiceMessage.mk "ok").content)) :=
  ⟨by decide, by decide, rfl, by decide,
    (pipeline_event_order keyedState (some "Hello") ⟨⟨"ok"⟩⟩ [] false "hi"
      (by decide) (by decide) rfl (by decide)).1⟩

end Chat
